import Mathlib

/-!
Shallow embedding of the React adapter layer of `type-router-react`
(`type-router-react.tsx`) together with the mock address-bar adapter from
`test-utils/mock-globals.ts`.  JavaScript strings are embedded as `String`;
the few JS string primitives the source uses (`startsWith`, `endsWith`,
`includes`, `indexOf`, `substring`) are implemented over the character list
so that every definition evaluates by kernel reduction.  The core router
package `@itaylor/type-router` is not part of this repository; the two spots
where a claim needs a fact about it are modelled from the specification and
carry a doc comment saying so.
-/

namespace TypeRouterReact

/-- JS `String.prototype.startsWith`, over the character list. -/
def jsStartsWith (s t : String) : Bool :=
  t.data.isPrefixOf s.data

/-- JS `String.prototype.endsWith`, over the character list. -/
def jsEndsWith (s t : String) : Bool :=
  t.data.reverse.isPrefixOf s.data.reverse

/-- JS `String.prototype.includes` for a single character. -/
def jsContains (s : String) (c : Char) : Bool :=
  s.data.contains c

/-- JS `String.prototype.indexOf` for a single character, on the character
list: index of the first occurrence, `none` when absent. -/
def jsIndexOfAux (c : Char) : List Char → Option Nat
  | [] => none
  | x :: xs => if x = c then some 0 else (jsIndexOfAux c xs).map (· + 1)

/-- JS `url.indexOf(c)` (with `none` standing for `-1`). -/
def jsIndexOf (s : String) (c : Char) : Option Nat :=
  jsIndexOfAux c s.data

/-- JS string-typed `x || d`: `undefined`/`null` (here `none`) and the empty
string are falsy and yield the default `d`; any other string is kept. -/
def jsOrString (v : Option String) (d : String) : String :=
  match v with
  | none => d
  | some s => if s = "" then d else s

/-- The fields of the options record passed to `createRouterForReact` that the
React layer itself inspects (`urlType`, `autoInit`); `none` is an absent
field.  All other options are forwarded to the core untouched. -/
structure ReactOptions where
  urlType : Option String := none
  autoInit : Option Bool := none
deriving DecidableEq

/-- The two option fields `createRouterForReact` fixes in the record it hands
to the core `createRouter` (the source spreads `...options` and then writes
`urlType` and `autoInit: false` on top). -/
structure CoreOptions where
  urlType : String
  autoInit : Bool
deriving DecidableEq

/-- `const urlType = options.urlType || 'hash'` in `createRouterForReact`. -/
def resolveUrlType (o : ReactOptions) : String :=
  jsOrString o.urlType "hash"

/-- The effective options `createRouterForReact` passes to `createRouter`:
`{ ...options, urlType, autoInit: false }`. -/
def coreOptionsOf (o : ReactOptions) : CoreOptions :=
  { urlType := resolveUrlType o, autoInit := false }

/-- Modelled from the spec: `createRouter` lives in the core package
`@itaylor/type-router`, not under this repository's sources; per the spec's
RouterOptions, `autoInit` decides "whether construction immediately begins
listening to the platform's address bar and performing the first match". -/
def createRouterStartsAtConstruction (o : CoreOptions) : Bool :=
  o.autoInit

/-- Modelled from the spec: the hash URL Adapter strategy is in the core
package; "logical path is everything after `#` (normalized to always start
with `/`, defaulting to `/` when the fragment is empty or just `#`)". -/
def hashToLogicalPath (h : String) : String :=
  let frag := if jsStartsWith h "#" then String.mk (h.data.drop 1) else h
  if frag = "" then "/"
  else if jsStartsWith frag "/" then frag
  else "/" ++ frag

/-- The hash normalization in `RouterProvider`'s mount effect:
`if (!currentHash || currentHash === '#') window.location.hash = '#/'`. -/
def normalizeHash (h : String) : String :=
  if h = "" || h = "#" then "#/" else h

/-- The router calls `RouterProvider`'s mount effect makes, in order. -/
inductive MountAction where
  | subscribe
  | init
deriving DecidableEq

/-- `RouterProvider`'s mount effect: in hash mode first normalize
`window.location.hash`, then `router.subscribe(() => {})` and
`router.init()`.  Returns the resulting hash and the router calls in order. -/
def providerMountEffect (urlType : String) (hash : String) : String × List MountAction :=
  (if urlType = "hash" then normalizeHash hash else hash,
   [MountAction.subscribe, MountAction.init])

/-- A JS `Record<string, string>` of route params, as an association list. -/
abbrev Params := List (String × String)

/-- The href computed by `Link`:
`urlType === 'hash' ? '#' + computedPath : computedPath`. -/
def linkHref (urlType : String) (computedPath : String) : String :=
  if urlType = "hash" then "#" ++ computedPath else computedPath

/-- `Link`'s href as a function of the core router's `computePath` (which is
in the core package and stays abstract here): the anchor's `href` attribute
is `linkHref` applied to `router.computePath(to, params)`. -/
def renderLinkHref (urlType : String) (computePath : String → Params → String)
    (toPath : String) (params : Params) : String :=
  linkHref urlType (computePath toPath params)

/-- The fields of a React mouse event inspected by `Link`'s click handler. -/
structure MouseEv where
  button : Int
  metaKey : Bool
  ctrlKey : Bool
  shiftKey : Bool
deriving DecidableEq

/-- What `Link`'s click handler did: whether it called `e.preventDefault()`
and, when it navigated, the path passed to `router.navigate`. -/
structure ClickOutcome where
  preventedDefault : Bool
  navigatedTo : Option String
deriving DecidableEq

/-- `Link`'s `handleClick`: only for an unmodified left click
(`e.button === 0 && !e.metaKey && !e.ctrlKey && !e.shiftKey`) does it call
`e.preventDefault()` and `navigate(computedPath)`. -/
def handleClick (computedPath : String) (e : MouseEv) : ClickOutcome :=
  if e.button == 0 && !e.metaKey && !e.ctrlKey && !e.shiftKey then
    { preventedDefault := true, navigatedTo := some computedPath }
  else
    { preventedDefault := false, navigatedTo := none }

/-- The module-level helper `isPathAncestor(currentPath, ancestorPath)`:
`if (!currentPath || !ancestorPath) return false;
 return currentPath === ancestorPath ||
   currentPath.startsWith(ancestorPath.endsWith('/') ? ancestorPath
                                                     : ancestorPath + '/')`.
`none` stands for JS `undefined`/`null`. -/
def isPathAncestor (currentPath ancestorPath : Option String) : Bool :=
  match currentPath, ancestorPath with
  | some c, some a =>
    if c = "" || a = "" then false
    else c == a || jsStartsWith c (if jsEndsWith a "/" then a else a ++ "/")
  | _, _ => false

/-- The two `NavigationState` fields `useIsActive` inspects: the current
logical path (`routeState.path`) and the matched route's template path
(`routeState.route?.path`), each `none` when null/absent. -/
structure RouteState where
  path : Option String
  routePath : Option String
deriving DecidableEq

/-- The `comparisonType` argument of `useIsActive`. -/
inductive ActiveComparisonType where
  | none
  | auto
  | ancestor
deriving DecidableEq

/-- The `useIsActive` hook as a function of the current route state. -/
def useIsActive (routeState : RouteState) (path : String)
    (comparisonType : ActiveComparisonType) : Bool :=
  match comparisonType with
  | .none => false
  | .auto =>
    if jsContains path ':' then routeState.routePath == some path
    else routeState.path == some path
  | .ancestor =>
    if jsContains path ':' then isPathAncestor routeState.routePath (some path)
    else isPathAncestor routeState.path (some path)

/-- An enter/exit callback as the React layer sees it: either an opaque user
callback carried by a behavior route (`user`), or the callback synthesized by
`realizeComponentRoutes` for a component route, which swaps the active view
component to the given value (`setView`).  `C` is the component type, `A` the
type of opaque user callbacks. -/
inductive Callback (C A : Type) where
  | user (cb : A)
  | setView (c : Option C)
deriving DecidableEq

/-- A core route record: a path plus optional enter/exit callbacks. -/
structure CoreRoute (C A : Type) where
  path : String
  onEnter : Option (Callback C A) := none
  onExit : Option (Callback C A) := none
deriving DecidableEq

/-- An element of the route array given to `createRouterForReact`: either a
plain behavior route or a component route (`'component' in route`). -/
inductive ReactRoute (C A : Type) where
  | behavior (r : CoreRoute C A)
  | component (path : String) (component : C)
deriving DecidableEq

/-- `realizeComponentRoutes`: map each component route to a behavior route
with the same path whose `onEnter` sets the active view component to that
route's component and whose `onExit` sets it back to null; pass every other
route through unchanged. -/
def realizeComponentRoutes {C A : Type} (routes : List (ReactRoute C A)) :
    List (CoreRoute C A) :=
  routes.map fun route =>
    match route with
    | .component p comp =>
      { path := p
        onEnter := some (Callback.setView (some comp))
        onExit := some (Callback.setView none) }
    | .behavior r => r

/-- The view-component state of one `createRouterForReact` call:
`setActiveViewComponentOuter` is assigned once `RouterProvider` renders
(`setterRegistered`), after which the React state cell holds the active view
component; before that, `initialActiveViewComponent` is the backing store. -/
structure ViewStore (C : Type) where
  setterRegistered : Bool
  reactState : Option C
  initialActiveViewComponent : Option C
deriving DecidableEq

/-- `setActiveViewComponentInitial`: route the new value through the React
state setter when it is registered, into `initialActiveViewComponent`
otherwise. -/
def setActiveViewComponentInitial {C : Type} (st : ViewStore C) (c : Option C) :
    ViewStore C :=
  if st.setterRegistered then { st with reactState := c }
  else { st with initialActiveViewComponent := c }

/-- The active view component `ActiveView` reads: the React state once the
setter is registered, the initial value before that. -/
def activeComponent {C : Type} (st : ViewStore C) : Option C :=
  if st.setterRegistered then st.reactState else st.initialActiveViewComponent

/-- Running one callback against the view store: the synthesized `setView`
callbacks call `setActiveViewComponentInitial`; opaque user callbacks have no
access to the store. -/
def runCallback {C A : Type} (st : ViewStore C) (cb : Callback C A) : ViewStore C :=
  match cb with
  | .user _ => st
  | .setView c => setActiveViewComponentInitial st c

/-- `ActiveView`'s render result: `none` is React `null`; otherwise the
active component together with the exact params record spread as its props
(`<ActiveViewComponent {...params} />`). -/
def ActiveView {C : Type} (activeViewComponent : Option C)
    (params : Option Params) : Option (C × Params) :=
  match activeViewComponent, params with
  | none, _ => none
  | some _, none => none
  | some comp, some ps => some (comp, ps)

/-- The mock `location` object from `test-utils/mock-globals.ts`. -/
structure MockLocation where
  pathname : String
  search : String
  hash : String
deriving DecidableEq

/-- The mock adapter's `history.pushState(_, _, url)`: split `url` at the
first `?` (`url.indexOf('?')` plus two `substring` calls, no URL decoding);
without a `?` the whole `url` becomes the pathname and the search is emptied.
`location.hash` is untouched. -/
def pushState (loc : MockLocation) (url : String) : MockLocation :=
  match jsIndexOf url '?' with
  | some i =>
    { loc with
      pathname := String.mk (url.data.take i)
      search := String.mk (url.data.drop i) }
  | none => { loc with pathname := url, search := "" }

/-! ## Helper lemmas -/

/-- If `jsIndexOfAux c l = some i` then nothing before position `i` is `c` and
the suffix from `i` starts with `c`. -/
theorem jsIndexOfAux_some_spec (c : Char) (l : List Char) :
    ∀ i : Nat, jsIndexOfAux c l = some i →
      (∀ a ∈ l.take i, a ≠ c) ∧ ∃ rest, l.drop i = c :: rest := by
  induction l with
  | nil => intro i h; simp [jsIndexOfAux] at h
  | cons x xs ih =>
    intro i h
    by_cases hx : x = c
    · rw [jsIndexOfAux, if_pos hx] at h
      obtain rfl : i = 0 := by simpa using h.symm
      exact ⟨by simp, xs, by simp [hx]⟩
    · rw [jsIndexOfAux, if_neg hx] at h
      cases hj : jsIndexOfAux c xs with
      | none => rw [hj] at h; simp at h
      | some j =>
        rw [hj] at h
        obtain rfl : i = j + 1 := by simpa using h.symm
        obtain ⟨htake, rest, hdrop⟩ := ih j hj
        refine ⟨?_, rest, by simpa using hdrop⟩
        intro a ha
        rcases (by simpa using ha : a = x ∨ a ∈ xs.take j) with rfl | ha
        · exact hx
        · exact htake a ha

/-- If `jsIndexOfAux c l = none` then `c` does not occur in `l`. -/
theorem jsIndexOfAux_none_spec (c : Char) (l : List Char) :
    jsIndexOfAux c l = none → c ∉ l := by
  induction l with
  | nil => intro _ h; simp at h
  | cons x xs ih =>
    intro h hmem
    by_cases hx : x = c
    · rw [jsIndexOfAux, if_pos hx] at h; simp at h
    · rw [jsIndexOfAux, if_neg hx] at h
      cases hj : jsIndexOfAux c xs with
      | some j => rw [hj] at h; simp at h
      | none =>
        rcases (by simpa using hmem : c = x ∨ c ∈ xs) with rfl | hmem
        · exact hx rfl
        · exact ih hj hmem

/-! ## Claim theorems -/

/-- C1 is false of the code: even with `autoInit` explicitly `true` (and
likewise with it absent), `createRouterForReact` hands the core `createRouter`
an options record with `autoInit = false`, so the underlying router does not
begin listening or matching at construction time. -/
theorem c1_counterexample :
    createRouterStartsAtConstruction
      (coreOptionsOf { urlType := none, autoInit := some true }) = false ∧
    createRouterStartsAtConstruction
      (coreOptionsOf { urlType := none, autoInit := none }) = false :=
  ⟨rfl, rfl⟩

/-- C1 (amended): for every options record passed to `createRouterForReact`,
whatever its `autoInit` field, the options handed to the core `createRouter`
carry `autoInit = false`, so the underlying router does not start listening or
matching at construction; instead `RouterProvider`'s mount effect later calls
`router.init()`. -/
theorem c1_autoInit_forced_false (o : ReactOptions) (urlType hash : String) :
    (coreOptionsOf o).autoInit = false ∧
    createRouterStartsAtConstruction (coreOptionsOf o) = false ∧
    MountAction.init ∈ (providerMountEffect urlType hash).2 := by
  refine ⟨rfl, rfl, ?_⟩
  simp [providerMountEffect]

/-- C2: when `options.urlType` is absent or falsy, `createRouterForReact`
resolves the URL strategy to `'hash'`, constructs the core router with
`urlType = 'hash'`, and `Link` computes its href with the `'#'`-prefixing
hash strategy. -/
theorem c2_default_urlType_hash (o : ReactOptions) (computedPath : String)
    (h : o.urlType = none ∨ o.urlType = some "") :
    resolveUrlType o = "hash" ∧
    (coreOptionsOf o).urlType = "hash" ∧
    linkHref (resolveUrlType o) computedPath = "#" ++ computedPath := by
  have hu : resolveUrlType o = "hash" := by
    rcases h with h | h <;> simp [resolveUrlType, jsOrString, h]
  refine ⟨hu, hu, ?_⟩
  rw [hu]
  simp [linkHref]

theorem c2_default_urlType_hash_witness :
    resolveUrlType {} = "hash" ∧
    (coreOptionsOf {}).urlType = "hash" ∧
    linkHref (resolveUrlType {}) "/about" = "#" ++ "/about" :=
  c2_default_urlType_hash {} "/about" (Or.inl rfl)

/-- C3: for every `computePath` function, target path and params, the anchor
href is `'#' ++ router.computePath(to, params)` under the `'hash'` strategy
and exactly `router.computePath(to, params)` under `'history'`. -/
theorem c3_link_href (computePath : String → Params → String) (toPath : String)
    (params : Params) :
    renderLinkHref "hash" computePath toPath params =
      "#" ++ computePath toPath params ∧
    renderLinkHref "history" computePath toPath params =
      computePath toPath params := by
  constructor <;> simp [renderLinkHref, linkHref]

/-- C4: `realizeComponentRoutes` preserves length and, position by position,
replaces a component route by a behavior route with the same path whose
synthesized `onEnter` sets the active view component to the route's component
and whose synthesized `onExit` resets it to null (shown through
`activeComponent ∘ runCallback`), while a route without a `component` field
passes through unchanged. -/
theorem c4_realizeComponentRoutes {C A : Type} (routes : List (ReactRoute C A))
    (i : Nat) (st : ViewStore C) :
    (realizeComponentRoutes routes).length = routes.length ∧
    (∀ p comp, routes[i]? = some (ReactRoute.component p comp) →
      (realizeComponentRoutes routes)[i]? =
        some { path := p
               onEnter := some (Callback.setView (some comp))
               onExit := some (Callback.setView none) }) ∧
    (∀ r, routes[i]? = some (ReactRoute.behavior r) →
      (realizeComponentRoutes routes)[i]? = some r) ∧
    (∀ comp : C,
      activeComponent
        (runCallback st (Callback.setView (A := A) (some comp))) = some comp ∧
      activeComponent
        (runCallback st (Callback.setView (A := A) (none : Option C))) = none) := by
  refine ⟨by simp [realizeComponentRoutes], ?_, ?_, ?_⟩
  · intro p comp h
    simp [realizeComponentRoutes, List.getElem?_map, h]
  · intro r h
    simp [realizeComponentRoutes, List.getElem?_map, h]
  · intro comp
    constructor <;>
      cases hreg : st.setterRegistered <;>
        simp [runCallback, setActiveViewComponentInitial, activeComponent, hreg]

theorem c4_realizeComponentRoutes_witness :
    (realizeComponentRoutes
        ([ReactRoute.component "/a" 7,
          ReactRoute.behavior { path := "/b" }] : List (ReactRoute Nat Nat)))[0]? =
      some { path := "/a"
             onEnter := some (Callback.setView (some 7))
             onExit := some (Callback.setView none) } :=
  (c4_realizeComponentRoutes _ 0 ⟨false, none, none⟩).2.1 "/a" 7 rfl

/-- C5: `ActiveView` renders nothing exactly when the stored active view
component is null or the current state's params are null; otherwise it renders
the active component with exactly the current params spread as its props. -/
theorem c5_activeView {C : Type} (activeViewComponent : Option C)
    (params : Option Params) (comp : C) (ps : Params) :
    (ActiveView activeViewComponent params = none ↔
      (activeViewComponent = none ∨ params = none)) ∧
    ActiveView (some comp) (some ps) = some (comp, ps) := by
  refine ⟨?_, rfl⟩
  cases activeViewComponent <;> cases params <;> simp [ActiveView]

/-- C6: on `RouterProvider` mount in hash mode, an empty or bare-`#` fragment
is rewritten to `#/`, after which `subscribe` and `router.init()` run, so (per
the spec's hash strategy) the first match is against the root path `/`. -/
theorem c6_hash_root_default (hash : String) (h : hash = "" ∨ hash = "#") :
    (providerMountEffect "hash" hash).1 = "#/" ∧
    (providerMountEffect "hash" hash).2 =
      [MountAction.subscribe, MountAction.init] ∧
    hashToLogicalPath (providerMountEffect "hash" hash).1 = "/" := by
  rcases h with h | h <;> subst h <;> exact ⟨by decide, rfl, by decide⟩

theorem c6_hash_root_default_witness :
    (providerMountEffect "hash" "").1 = "#/" ∧
    (providerMountEffect "hash" "").2 =
      [MountAction.subscribe, MountAction.init] ∧
    hashToLogicalPath (providerMountEffect "hash" "").1 = "/" :=
  c6_hash_root_default "" (Or.inl rfl)

/-- C7: the mock `pushState` leaves `location.hash` untouched and splits the
url at the first `?`: the stored pathname and search concatenate back to the
url character for character (no decoding), the pathname contains no `?`, the
search starts with `?` whenever the url contains one, and with no `?` present
the whole url becomes the pathname and the search is emptied. -/
theorem c7_pushState (loc : MockLocation) (url : String) :
    (pushState loc url).hash = loc.hash ∧
    (pushState loc url).pathname.data ++ (pushState loc url).search.data = url.data ∧
    '?' ∉ (pushState loc url).pathname.data ∧
    ('?' ∈ url.data → (pushState loc url).search.data.head? = some '?') ∧
    ('?' ∉ url.data →
      (pushState loc url).pathname = url ∧ (pushState loc url).search = "") := by
  cases hidx : jsIndexOf url '?' with
  | none =>
    have hnot : '?' ∉ url.data := jsIndexOfAux_none_spec '?' url.data hidx
    refine ⟨?_, ?_, ?_, ?_, ?_⟩ <;> simp [pushState, hidx]
    · exact hnot
    · intro hmem; exact absurd hmem hnot
  | some i =>
    obtain ⟨htake, rest, hdrop⟩ := jsIndexOfAux_some_spec '?' url.data i hidx
    have hmem : '?' ∈ url.data := by
      have : '?' ∈ url.data.drop i := by rw [hdrop]; exact List.mem_cons_self _ _
      exact List.drop_subset i url.data this
    refine ⟨?_, ?_, ?_, ?_, ?_⟩
    · simp [pushState, hidx]
    · simp [pushState, hidx, List.take_append_drop]
    · simpa [pushState, hidx] using fun hq => htake '?' hq rfl
    · intro _
      simp [pushState, hidx, hdrop]
    · intro hnot; exact absurd hmem hnot

theorem c7_pushState_witness :
    (pushState ⟨"/", "", "#x"⟩ "/a?b=c").search.data.head? = some '?' :=
  (c7_pushState ⟨"/", "", "#x"⟩ "/a?b=c").2.2.2.1 (by decide)

/-- C8: `Link`'s click handler calls `preventDefault` and navigates to the
precomputed path exactly for an unmodified left click (button 0, no meta,
ctrl or shift), and for any other click does neither. -/
theorem c8_handleClick (computedPath : String) (e : MouseEv) :
    (handleClick computedPath e =
        { preventedDefault := true, navigatedTo := some computedPath } ↔
      (e.button = 0 ∧ e.metaKey = false ∧ e.ctrlKey = false ∧ e.shiftKey = false)) ∧
    ((e.button ≠ 0 ∨ e.metaKey = true ∨ e.ctrlKey = true ∨ e.shiftKey = true) →
      handleClick computedPath e =
        { preventedDefault := false, navigatedTo := none }) := by
  by_cases hb : e.button = 0 <;>
    cases hm : e.metaKey <;> cases hc : e.ctrlKey <;> cases hs : e.shiftKey <;>
      simp [handleClick, hb, hm, hc, hs]

theorem c8_handleClick_witness :
    handleClick "/about"
        { button := 1, metaKey := false, ctrlKey := false, shiftKey := false } =
      { preventedDefault := false, navigatedTo := none } :=
  (c8_handleClick "/about"
      { button := 1, metaKey := false, ctrlKey := false, shiftKey := false }).2
    (Or.inl (by decide))

/-- C9: `isPathAncestor c a` is true exactly when both arguments are present
and non-empty and the current path equals the candidate ancestor or starts
with the ancestor followed by `/` (the separator not being doubled when the
ancestor already ends in `/`); it is reflexive on every non-empty path and
false whenever either argument is missing. -/
theorem c9_isPathAncestor (c a : Option String) (s : String) (hs : s ≠ "") :
    (isPathAncestor c a = true ↔
      ∃ cs as, c = some cs ∧ a = some as ∧ cs ≠ "" ∧ as ≠ "" ∧
        (cs = as ∨
          jsStartsWith cs
            (if jsEndsWith as "/" then as else as ++ "/") = true)) ∧
    isPathAncestor (some s) (some s) = true ∧
    isPathAncestor none a = false ∧
    isPathAncestor c none = false := by
  refine ⟨?_, ?_, ?_, ?_⟩
  · cases c with
    | none => simp [isPathAncestor]
    | some cs =>
      cases a with
      | none => simp [isPathAncestor]
      | some as =>
        by_cases hc : cs = ""
        · simp [isPathAncestor, hc]
        · by_cases ha : as = ""
          · simp [isPathAncestor, hc, ha]
          · simp [isPathAncestor, hc, ha]
  · simp [isPathAncestor, hs]
  · cases a <;> rfl
  · cases c <;> rfl

theorem c9_isPathAncestor_witness :
    isPathAncestor (some "/app") (some "/app") = true :=
  (c9_isPathAncestor (some "/app") (some "/app") "/app" (by decide)).2.1

/-- C10: `useIsActive` returns false for comparison type `none`; for `auto` it
compares the matched route's template path with the argument when the argument
contains `:`, and the current logical path otherwise; for `ancestor` it makes
the same `:`-based choice of comparand but tests `isPathAncestor` instead of
equality. -/
theorem c10_useIsActive (st : RouteState) (p : String) :
    useIsActive st p ActiveComparisonType.none = false ∧
    (useIsActive st p ActiveComparisonType.auto = true ↔
      (if jsContains p ':' then st.routePath = some p else st.path = some p)) ∧
    (useIsActive st p ActiveComparisonType.ancestor = true ↔
      (if jsContains p ':' then isPathAncestor st.routePath (some p) = true
       else isPathAncestor st.path (some p) = true)) := by
  refine ⟨rfl, ?_, ?_⟩ <;> by_cases h : jsContains p ':' <;>
    simp [useIsActive, h]

end TypeRouterReact
